import Mathlib

/-
Verification of the plugin subsystem (backend/sublime/sublime_plugin.py).

The development shallowly embeds the Python source:
  - Python exceptions are modelled by the `Except PyErr` monad; a bare
    `except:` clause corresponds to matching on the `Except` value.
  - The `__Event` multicast class is modelled over observer identifiers
    (`Nat`); the behaviour of an observer when invoked is supplied as a
    function `beh : Nat → α → Except PyErr Unit` at fire time, and a fire
    returns the trace of invocations together with the logged tracebacks.
  - The module resolver `fn` and the loader `load_module` are modelled over
    an abstract filesystem `FS` mapping a path to a directory entry, a file
    entry, or nothing; paths and dotted names are lists of characters so
    that all string operations compute by structural recursion. The outcome
    of compiling and executing the plugin source file at a given path is a
    parameter of the loader, so a failure raised by module-scope plugin
    code propagates out of `load_module` as it does in the source.
  - `reload_plugin` is modelled over an abstract loaded module: a list of
    named members, where a member is either a (new-style) class — carrying
    its subclass relations to the four extension bases, and the outcome of
    calling it with no arguments — or a non-class value, which the
    registrar skips.
-/

/-- Python exception values, as far as the claims distinguish them:
`AttributeError` (e.g. calling a method on `None`), `ValueError`
(raised by `list.remove` on a missing element), and arbitrary other
exceptions raised by plugin code, tagged by a code. -/
inductive PyErr where
  | attributeError
  | valueError
  | exc (code : Nat)
deriving DecidableEq, Repr

/-- Model of the `__Event` class: it holds the ordered list
`self.__observers`, here represented by observer identifiers. -/
structure Event where
  observers : List Nat
deriving DecidableEq, Repr

/-- Model of `__Event.__iadd__`: `self.__observers.append(observer)` —
append at the end, no deduplication. -/
def iadd (e : Event) (o : Nat) : Event :=
  { observers := e.observers ++ [o] }

/-- Model of Python `list.remove`: delete the first element equal to the
argument, keeping all others in order; raise `ValueError` when no element
is equal to it. -/
def pyListRemove (xs : List Nat) (o : Nat) : Except PyErr (List Nat) :=
  match xs with
  | [] => Except.error PyErr.valueError
  | x :: rest =>
    if x = o then Except.ok rest
    else
      match pyListRemove rest o with
      | Except.ok r => Except.ok (x :: r)
      | Except.error e => Except.error e

/-- Model of `__Event.__isub__`: `self.__observers.remove(observer)`. -/
def isub (e : Event) (o : Nat) : Except PyErr Event :=
  match pyListRemove e.observers o with
  | Except.ok l => Except.ok { observers := l }
  | Except.error e => Except.error e

/-- Result of one `__Event.__call__`: the ordered trace of observer
invocations (observer id, argument), and the failures printed by
`traceback.print_exc()` (observer id, exception). -/
structure FireResult (α : Type) where
  calls : List (Nat × α)
  tracebacks : List (Nat × PyErr)
deriving DecidableEq, Repr

/-- Model of the loop body of `__Event.__call__` over the remaining
observers. Each iteration invokes the observer inside
`try: observer(*args) except: traceback.print_exc()`, so a failure is
recorded and the loop continues; if the remaining iterations could raise
(they cannot — the theorems below prove it) the exception would propagate
through the final match. -/
def callObservers (beh : Nat → α → Except PyErr Unit) (x : α) :
    List Nat → Except PyErr (FireResult α)
  | [] => Except.ok ⟨[], []⟩
  | o :: rest =>
    let tb : List (Nat × PyErr) :=
      match beh o x with
      | Except.ok _ => []
      | Except.error err => [(o, err)]
    match callObservers beh x rest with
    | Except.ok r => Except.ok ⟨(o, x) :: r.calls, tb ++ r.tracebacks⟩
    | Except.error err => Except.error err

/-- Model of `__Event.__call__(*args)`: invoke every currently subscribed
observer in order. -/
def eventCall (beh : Nat → α → Except PyErr Unit) (e : Event) (x : α) :
    Except PyErr (FireResult α) :=
  callObservers beh x e.observers

/-- Subscribing a list of observers in order onto a channel, by repeated
`__iadd__`. -/
def subscribeAll (e : Event) (os : List Nat) : Event :=
  os.foldl iadd e

theorem subscribeAll_observers (e : Event) (os : List Nat) :
    (subscribeAll e os).observers = e.observers ++ os := by
  induction os generalizing e with
  | nil => simp [subscribeAll]
  | cons o rest ih =>
    simp only [subscribeAll, List.foldl_cons] at *
    rw [ih (iadd e o)]
    simp [iadd]

theorem callObservers_ok (beh : Nat → α → Except PyErr Unit) (x : α)
    (l : List Nat) :
    ∃ r, callObservers beh x l = Except.ok r ∧
      r.calls = l.map (fun o => (o, x)) := by
  induction l with
  | nil => exact ⟨⟨[], []⟩, rfl, rfl⟩
  | cons o rest ih =>
    obtain ⟨r, hr, hcalls⟩ := ih
    refine ⟨⟨(o, x) :: r.calls,
      (match beh o x with
       | Except.ok _ => []
       | Except.error err => [(o, err)]) ++ r.tracebacks⟩, ?_, ?_⟩
    · simp [callObservers, hr]
    · simp [hcalls]

/-- C3: after subscribing `o1, ..., on` in order on a fresh channel, a fire
with argument `x` returns normally and its invocation trace is exactly the
subscription list, in order, each observer paired with `x`; a duplicated
subscription appears once per subscription in the trace. -/
theorem fire_invokes_each_subscription_once_in_order
    (os : List Nat) (beh : Nat → α → Except PyErr Unit) (x : α) :
    ∃ r, eventCall beh (subscribeAll ⟨[]⟩ os) x = Except.ok r ∧
      r.calls = os.map (fun o => (o, x)) := by
  have h := callObservers_ok beh x (subscribeAll ⟨[]⟩ os).observers
  rw [subscribeAll_observers] at h
  simpa [eventCall, subscribeAll_observers] using h

/-- C4: when the observer `o` raises `err` during a fire, the fire still
returns normally, its trace still contains every subscribed observer —
including all of those subscribed after `o` — in order with argument `x`,
and the failure of `o` is among the logged tracebacks. -/
theorem fire_isolates_observer_failure
    (beh : Nat → α → Except PyErr Unit) (l1 l2 : List Nat) (o : Nat)
    (x : α) (err : PyErr) (hfail : beh o x = Except.error err) :
    ∃ r, eventCall beh ⟨l1 ++ o :: l2⟩ x = Except.ok r ∧
      r.calls = (l1 ++ o :: l2).map (fun o2 => (o2, x)) ∧
      (o, err) ∈ r.tracebacks := by
  induction l1 with
  | nil =>
    obtain ⟨r, hr, hcalls⟩ := callObservers_ok beh x l2
    refine ⟨⟨(o, x) :: r.calls, (o, err) :: r.tracebacks⟩, ?_, ?_, ?_⟩
    · simp [eventCall, callObservers, hr, hfail]
    · simp [hcalls]
    · simp
  | cons a rest ih =>
    obtain ⟨r, hr, hcalls, htb⟩ := ih
    simp only [eventCall] at hr
    refine ⟨⟨(a, x) :: r.calls,
      (match beh a x with
       | Except.ok _ => []
       | Except.error e2 => [(a, e2)]) ++ r.tracebacks⟩, ?_, ?_, ?_⟩
    · simp [eventCall, callObservers, hr]
    · simp [hcalls]
    · simp [htb]

/-- Witness for C4 at a concrete channel: observers 0, 1, 2 subscribed in
that order, observer 1 raises; all three are still invoked in order with
argument 5 and the failure of observer 1 is logged. -/
theorem fire_isolates_observer_failure_witness :
    ∃ r, eventCall
        (fun o _ => if o = 1 then Except.error (PyErr.exc 9) else Except.ok ())
        ⟨[0] ++ 1 :: [2]⟩ (5 : Nat) = Except.ok r ∧
      r.calls = ([0] ++ 1 :: [2]).map (fun o2 => (o2, (5 : Nat))) ∧
      (1, PyErr.exc 9) ∈ r.tracebacks :=
  fire_isolates_observer_failure
    (fun o _ => if o = 1 then Except.error (PyErr.exc 9) else Except.ok ())
    [0] [2] 1 5 (PyErr.exc 9) rfl

theorem pyListRemove_first (l1 l2 : List Nat) (o : Nat) (h : o ∉ l1) :
    pyListRemove (l1 ++ o :: l2) o = Except.ok (l1 ++ l2) := by
  induction l1 with
  | nil => simp [pyListRemove]
  | cons x rest ih =>
    have hxo : ¬ x = o := fun hx => h (hx ▸ List.mem_cons_self x rest)
    have hrest : o ∉ rest := fun hr => h (List.mem_cons_of_mem x hr)
    simp [pyListRemove, hxo, ih hrest]

theorem pyListRemove_not_mem (l : List Nat) (o : Nat) (h : o ∉ l) :
    pyListRemove l o = Except.error PyErr.valueError := by
  induction l with
  | nil => rfl
  | cons x rest ih =>
    have hxo : ¬ x = o := fun hx => h (hx ▸ List.mem_cons_self x rest)
    have hrest : o ∉ rest := fun hr => h (List.mem_cons_of_mem x hr)
    simp [pyListRemove, hxo, ih hrest]

/-- C9: `__isub__` removes exactly the first observer equal to the given
one — when the list is `l1 ++ o :: l2` with no copy of `o` in `l1`, the
result is `l1 ++ l2`, all other entries kept in order — and removing an
observer that is not present raises `ValueError` to the caller rather than
being silently ignored. -/
theorem isub_removes_first_or_errors :
    (∀ (l1 l2 : List Nat) (o : Nat), o ∉ l1 →
      isub ⟨l1 ++ o :: l2⟩ o = Except.ok ⟨l1 ++ l2⟩) ∧
    (∀ (l : List Nat) (o : Nat), o ∉ l →
      isub ⟨l⟩ o = Except.error PyErr.valueError) := by
  constructor
  · intro l1 l2 o h
    simp [isub, pyListRemove_first l1 l2 o h]
  · intro l o h
    simp [isub, pyListRemove_not_mem l o h]

/-- Witness for C9: removing observer 2 from the channel [1, 2, 3, 2]
yields [1, 3, 2] (only the first copy removed); removing 9 from [5]
raises `ValueError`. -/
theorem isub_removes_first_or_errors_witness :
    isub ⟨[1] ++ 2 :: [3, 2]⟩ 2 = Except.ok ⟨[1] ++ [3, 2]⟩ ∧
    isub ⟨[5]⟩ 9 = Except.error PyErr.valueError :=
  ⟨isub_removes_first_or_errors.1 [1] [3, 2] 2 (by decide),
   isub_removes_first_or_errors.2 [5] 9 (by decide)⟩

/-- Paths and dotted names are lists of characters, so that splitting and
joining compute by structural recursion. -/
abbrev PyStr := List Char

/-- Model of `fullname.split(".")`: cut the character list at every dot;
adjacent dots and a leading or trailing dot yield empty segments, and the
empty name yields one empty segment, exactly as in Python. -/
def splitDots : PyStr → List PyStr
  | [] => [[]]
  | c :: rest =>
    if c = '.' then [] :: splitDots rest
    else
      match splitDots rest with
      | [] => [[c]]
      | s :: ss => (c :: s) :: ss

/-- Model of `"/".join(segments)`. -/
def joinSlash : List PyStr → PyStr
  | [] => []
  | [s] => s
  | s :: rest => s ++ '/' :: joinSlash rest

/-- Model of posix `os.path.join(p, q)` for two components: if `q` is
absolute it replaces `p`; otherwise `q` is appended to `p` with a single
separator inserted unless `p` is empty or already ends with one. -/
def osPathJoin (p q : PyStr) : PyStr :=
  if q.head? = some '/' then q
  else if p = [] then q
  else if p.getLast? = some '/' then p ++ q
  else p ++ '/' :: q

/-- Kinds of filesystem entries the resolver can encounter at a path. -/
inductive FsEntry where
  | dir
  | file
deriving DecidableEq, Repr

/-- Abstract filesystem: what entry, if any, each path holds. `os.path.exists`
is `(fs p).isSome`; the source never asks whether a path is a directory. -/
def FS : Type := PyStr → Option FsEntry

/-- The `.py` source extension appended by `fn`. -/
def pyExt : PyStr := ['.', 'p', 'y']

/-- Model of the loop of `fn` over the remaining entries of `sys.path`:
for each root `p`, build `f = os.path.join(p, paths)`, return `f` if it
exists, else return `f + ".py"` if that exists, else continue. -/
def fnLoop (fs : FS) (paths : PyStr) : List PyStr → Option PyStr
  | [] => none
  | p :: rest =>
    let f := osPathJoin p paths
    if (fs f).isSome then some f
    else if (fs (f ++ pyExt)).isSome then some (f ++ pyExt)
    else fnLoop fs paths rest

/-- Model of `fn(fullname)`: split the dotted name, join with the path
separator, then scan `sys.path` in order; `None` when no root matches. -/
def fn (fs : FS) (sysPath : List PyStr) (fullname : PyStr) : Option PyStr :=
  fnLoop fs (joinSlash (splitDots fullname)) sysPath

/-- Resolution of one search root exactly as the specification words it:
a namespace hit requires `root/segments` to exist AS A DIRECTORY; otherwise
`root/segments` plus the source extension existing is a source hit. -/
def resolveSpecRoot (fs : FS) (paths : PyStr) (p : PyStr) : Option PyStr :=
  let f := osPathJoin p paths
  if fs f = some FsEntry.dir then some f
  else if (fs (f ++ pyExt)).isSome then some (f ++ pyExt)
  else none

/-- The resolution algorithm as the specification words it: first root
yielding either hit wins, not-found when no root yields a hit. -/
def resolveSpec (fs : FS) (sysPath : List PyStr) (fullname : PyStr) :
    Option PyStr :=
  sysPath.findSome? (resolveSpecRoot fs (joinSlash (splitDots fullname)))

/-- Resolution of one search root as the amended claim words it: the first
test is bare existence of `root/segments` — file or directory alike — not a
directory test. -/
def resolveAmendedRoot (fs : FS) (paths : PyStr) (p : PyStr) : Option PyStr :=
  let f := osPathJoin p paths
  if (fs f).isSome then some f
  else if (fs (f ++ pyExt)).isSome then some (f ++ pyExt)
  else none

/-- The amended resolution algorithm: per-root as `resolveAmendedRoot`,
first root yielding a hit wins, not-found otherwise. -/
def resolveAmended (fs : FS) (sysPath : List PyStr) (fullname : PyStr) :
    Option PyStr :=
  sysPath.findSome? (resolveAmendedRoot fs (joinSlash (splitDots fullname)))

/-- Filesystem for the C5 counterexample: the path `/plugins/foo` exists
but is a regular FILE, not a directory, and no other path exists. -/
def fsPlainFile : FS := fun p =>
  if p = "/plugins/foo".data then some FsEntry.file else none

/-- C5 counterexample: on a filesystem where `/plugins/foo` exists as a
plain file, the source's `fn` returns `/plugins/foo` as a hit for the name
`foo`, while the algorithm the claim describes — which requires the
extension-less form to exist AS A DIRECTORY — returns not-found: `fn` tests
existence with `os.path.exists`, never directory-hood. -/
theorem fn_differs_from_directory_test_resolution :
    fn fsPlainFile ["/plugins".data] "foo".data = some "/plugins/foo".data ∧
    resolveSpec fsPlainFile ["/plugins".data] "foo".data = none := by
  constructor <;> decide

/-- C5 (amended): the resolver equals the spec-worded algorithm with the
directory test relaxed to bare existence, and it returns not-found exactly
when no root holds either the extension-less form or the form with the
source extension. Resolution is a pure function of the filesystem and the
search path. -/
theorem fn_first_root_wins_characterization
    (fs : FS) (sysPath : List PyStr) (fullname : PyStr) :
    fn fs sysPath fullname = resolveAmended fs sysPath fullname ∧
    (fn fs sysPath fullname = none ↔
      ∀ p ∈ sysPath,
        fs (osPathJoin p (joinSlash (splitDots fullname))) = none ∧
        fs (osPathJoin p (joinSlash (splitDots fullname)) ++ pyExt) = none) := by
  constructor
  · induction sysPath with
    | nil => rfl
    | cons p rest ih =>
      simp only [fn, fnLoop, resolveAmended, List.findSome?, resolveAmendedRoot]
      by_cases h1 : (fs (osPathJoin p (joinSlash (splitDots fullname)))).isSome
      · simp [h1]
      · by_cases h2 :
          (fs (osPathJoin p (joinSlash (splitDots fullname)) ++ pyExt)).isSome
        · simp [h1, h2]
        · simpa [h1, h2] using ih
  · induction sysPath with
    | nil => simp [fn, fnLoop]
    | cons p rest ih =>
      simp only [fn, fnLoop] at ih ⊢
      by_cases h1 : (fs (osPathJoin p (joinSlash (splitDots fullname)))).isSome
      · simp only [h1, if_true]
        constructor
        · intro h
          exact absurd h (by simp)
        · intro h
          have := (h p (List.mem_cons_self p rest)).1
          rw [this] at h1
          exact absurd h1 (by simp)
      · by_cases h2 :
          (fs (osPathJoin p (joinSlash (splitDots fullname)) ++ pyExt)).isSome
        · simp only [h1, if_false, h2, if_true]
          constructor
          · intro h
            exact absurd h (by simp)
          · intro h
            have := (h p (List.mem_cons_self p rest)).2
            rw [this] at h2
            exact absurd h2 (by simp)
        · simp only [h1, h2, Bool.false_eq_true, if_false]
          rw [ih]
          constructor
          · intro h q hq
            rcases List.mem_cons.mp hq with hq1 | hq2
            · subst hq1
              exact ⟨Option.not_isSome_iff_eq_none.mp h1,
                Option.not_isSome_iff_eq_none.mp h2⟩
            · exact h q hq2
          · intro h q hq
            exact h q (List.mem_cons_of_mem p hq)

/-- Filesystem for the C5 witness, matching the spec scenario: the search
root `/plugins` is a directory holding the directory `foo` and the source
file `foo/bar.py`; nothing else exists. -/
def fsScenario : FS := fun p =>
  if p = "/plugins".data then some FsEntry.dir
  else if p = "/plugins/foo".data then some FsEntry.dir
  else if p = "/plugins/foo/bar.py".data then some FsEntry.file
  else none

/-- Witness for C5 (amended), on the spec scenario filesystem:
`foo.bar` resolves to the source file, `foo.baz` — shown not-found through
the characterization theorem — resolves to nothing, and `foo` is a
namespace hit on the bare directory. -/
theorem fn_first_root_wins_characterization_witness :
    fn fsScenario ["/plugins".data] "foo.baz".data = none ∧
    fn fsScenario ["/plugins".data] "foo.bar".data =
      some "/plugins/foo/bar.py".data ∧
    fn fsScenario ["/plugins".data] "foo".data = some "/plugins/foo".data :=
  ⟨(fn_first_root_wins_characterization fsScenario ["/plugins".data]
      "foo.baz".data).2.mpr (by decide),
   by decide, by decide⟩

/-- A Python module object as the loader produces it: its identity (each
creation yields a fresh object), its dotted name, and the `__path__`
attribute set only on synthesized namespace modules. -/
structure PyModule where
  id : Nat
  modName : PyStr
  pathAttr : Option PyStr
deriving DecidableEq, Repr

/-- The process-wide loader state: `sys.modules` as an association list
from dotted name to module object, a fresh-identity counter, and two
instrumentation traces — how many times the resolver `fn` was consulted
and which source paths were compiled and executed. -/
structure LoaderState where
  sysModules : List (PyStr × PyModule)
  nextId : Nat
  fnCalls : Nat
  executed : List PyStr
deriving DecidableEq, Repr

/-- Lookup in the `sys.modules` association list (`fullname in sys.modules`
followed by `sys.modules[fullname]`). -/
def lookupModule (l : List (PyStr × PyModule)) (k : PyStr) : Option PyModule :=
  match l with
  | [] => none
  | (n, m) :: rest => if n = k then some m else lookupModule rest k

/-- Model of `__myfinder.myloader.load_module(fullname)`. A cached name
returns the cached object untouched. Otherwise `fn` is consulted (counted
in `fnCalls`); if it returned `None`, the unguarded `f.endswith(".py")`
raises `AttributeError` on `None`. A hit not ending in `.py` synthesizes a
fresh namespace module with `__path__ = f` and caches it. A `.py` hit is
`imp.load_source(fullname, f)`: the source file is compiled and its
module-scope code executed — the outcome of running the plugin source at
path `f` is the parameter `runSource f` — and an exception raised there
propagates out of `load_module` (CPython also removes the partial module
from `sys.modules` in that case, so the failed name stays uncached); on
success the execution is recorded in `executed` and the fresh module is
inserted into `sys.modules` by `imp.load_source` itself. -/
def load_module (fs : FS) (sysPath : List PyStr)
    (runSource : PyStr → Except PyErr Unit) (st : LoaderState)
    (fullname : PyStr) : Except PyErr (PyModule × LoaderState) :=
  match lookupModule st.sysModules fullname with
  | some m => Except.ok (m, st)
  | none =>
    let st1 : LoaderState := { st with fnCalls := st.fnCalls + 1 }
    match fn fs sysPath fullname with
    | none => Except.error PyErr.attributeError
    | some f =>
      if ¬ (pyExt.isSuffixOf f) then
        let m : PyModule := { id := st1.nextId, modName := fullname,
                              pathAttr := some f }
        Except.ok (m, { st1 with nextId := st1.nextId + 1,
                                 sysModules := (fullname, m) :: st1.sysModules })
      else
        match runSource f with
        | Except.error e => Except.error e
        | Except.ok _ =>
          let m : PyModule := { id := st1.nextId, modName := fullname,
                                pathAttr := none }
          Except.ok (m, { st1 with nextId := st1.nextId + 1,
                                   sysModules := (fullname, m) :: st1.sysModules,
                                   executed := st1.executed ++ [f] })

theorem load_module_ok_of_resolvable_exec (fs : FS) (sysPath : List PyStr)
    (runSource : PyStr → Except PyErr Unit) (st : LoaderState)
    (fullname : PyStr)
    (hres : (fn fs sysPath fullname).isSome = true)
    (hexec : ∀ f, fn fs sysPath fullname = some f →
      runSource f = Except.ok ()) :
    ∃ m st2,
      load_module fs sysPath runSource st fullname = Except.ok (m, st2) ∧
      lookupModule st2.sysModules fullname = some m ∧
      load_module fs sysPath runSource st2 fullname = Except.ok (m, st2) := by
  cases hcache : lookupModule st.sysModules fullname with
  | some m =>
    exact ⟨m, st, by simp [load_module, hcache], hcache,
      by simp [load_module, hcache]⟩
  | none =>
    obtain ⟨f, hf⟩ := Option.isSome_iff_exists.mp hres
    by_cases hpy : pyExt.isSuffixOf f
    · refine ⟨{ id := st.nextId, modName := fullname, pathAttr := none },
        { sysModules := (fullname,
            { id := st.nextId, modName := fullname, pathAttr := none })
              :: st.sysModules,
          nextId := st.nextId + 1, fnCalls := st.fnCalls + 1,
          executed := st.executed ++ [f] }, ?_, ?_, ?_⟩
      · simp [load_module, hcache, hf, hpy, hexec f hf]
      · simp [lookupModule]
      · simp [load_module, lookupModule]
    · refine ⟨{ id := st.nextId, modName := fullname, pathAttr := some f },
        { sysModules := (fullname,
            { id := st.nextId, modName := fullname, pathAttr := some f })
              :: st.sysModules,
          nextId := st.nextId + 1, fnCalls := st.fnCalls + 1,
          executed := st.executed }, ?_, ?_, ?_⟩
      · simp [load_module, hcache, hf, hpy]
      · simp [lookupModule]
      · simp [load_module, lookupModule]

/-- The empty loader state at process start. -/
def emptyLoaderState : LoaderState :=
  { sysModules := [], nextId := 0, fnCalls := 0, executed := [] }

/-- C6 counterexample: `foo.bar` is resolvable under the search roots, yet
when the module-scope code of its source file raises, the first load does
NOT succeed — the exception propagates out of `load_module` and nothing is
cached — refuting the unconditional "for every module name resolvable
under some search root, the first load succeeds". -/
theorem resolvable_load_fails_when_module_scope_raises :
    (fn fsScenario ["/plugins".data] "foo.bar".data).isSome = true ∧
    load_module fsScenario ["/plugins".data]
        (fun _ => Except.error (PyErr.exc 3)) emptyLoaderState
        "foo.bar".data = Except.error (PyErr.exc 3) :=
  ⟨by decide, rfl⟩

/-- C6 (amended): for a name the resolver can locate, and whose located
source — when the hit is a source file — executes without raising at
module scope, the first load succeeds, the returned module object is in
the cache under that name afterwards, and loading the same name again
returns the IDENTICAL module object and leaves the state — including the
resolver-consultation count and the executed-sources trace — unchanged:
no re-resolution and no re-execution. -/
theorem load_module_load_once (fs : FS) (sysPath : List PyStr)
    (runSource : PyStr → Except PyErr Unit) (st : LoaderState)
    (fullname : PyStr)
    (hres : (fn fs sysPath fullname).isSome = true)
    (hexec : ∀ f, fn fs sysPath fullname = some f →
      runSource f = Except.ok ()) :
    ∃ m st2,
      load_module fs sysPath runSource st fullname = Except.ok (m, st2) ∧
      lookupModule st2.sysModules fullname = some m ∧
      load_module fs sysPath runSource st2 fullname = Except.ok (m, st2) :=
  load_module_ok_of_resolvable_exec fs sysPath runSource st fullname
    hres hexec

/-- Witness for C6 (amended): on the scenario filesystem with a source
that executes cleanly, the first load of `foo.bar` succeeds, caches the
module, and a second load returns the very same object with the state
unchanged. -/
theorem load_module_load_once_witness :
    ∃ m st2, load_module fsScenario ["/plugins".data] (fun _ => Except.ok ())
        emptyLoaderState "foo.bar".data = Except.ok (m, st2) ∧
      lookupModule st2.sysModules "foo.bar".data = some m ∧
      load_module fsScenario ["/plugins".data] (fun _ => Except.ok ()) st2
        "foo.bar".data = Except.ok (m, st2) :=
  load_module_load_once fsScenario ["/plugins".data] (fun _ => Except.ok ())
    emptyLoaderState "foo.bar".data (by decide) (fun _ _ => rfl)

/-- C10 counterexample: `fn` returns a location for `foo.bar`, yet
`load_module` does not return a module object — the exception raised by
the module-scope code of the located source propagates to the caller —
refuting "for every name for which fn returns a location, load_module
returns a module object". -/
theorem located_name_load_raises_when_execution_fails :
    fn fsScenario ["/plugins".data] "foo.bar".data =
      some "/plugins/foo/bar.py".data ∧
    load_module fsScenario ["/plugins".data]
        (fun _ => Except.error (PyErr.exc 4)) emptyLoaderState
        "foo.bar".data = Except.error (PyErr.exc 4) :=
  ⟨by decide, rfl⟩

/-- C10 (amended): loading is total only under the precondition that
resolution hits at load time AND, for a source hit, that the source's
module-scope execution does not raise — under them the load returns a
module object, while an execution failure propagates as the loader's
failure. For an uncached name for which `fn` returns `None` at load time
(say the filesystem changed after `find_module` ran), the unguarded
`f.endswith(".py")` raises `AttributeError` instead of reporting a
not-found load failure. -/
theorem load_module_total_only_when_resolvable (fs : FS)
    (sysPath : List PyStr) (runSource : PyStr → Except PyErr Unit)
    (st : LoaderState) (fullname : PyStr) :
    ((fn fs sysPath fullname).isSome = true →
      (∀ f, fn fs sysPath fullname = some f →
        runSource f = Except.ok ()) →
      ∃ m st2,
        load_module fs sysPath runSource st fullname = Except.ok (m, st2)) ∧
    (lookupModule st.sysModules fullname = none →
      fn fs sysPath fullname = none →
      load_module fs sysPath runSource st fullname =
        Except.error PyErr.attributeError) := by
  constructor
  · intro hres hexec
    obtain ⟨m, st2, h1, _, _⟩ :=
      load_module_ok_of_resolvable_exec fs sysPath runSource st fullname
        hres hexec
    exact ⟨m, st2, h1⟩
  · intro hcache hnone
    simp [load_module, hcache, hnone]

/-- Witness for C10 (amended): on the scenario filesystem with a cleanly
executing source, `foo.bar` resolves and loads, while the unresolvable
name `nope` makes the load raise `AttributeError` from `None.endswith`. -/
theorem load_module_total_only_when_resolvable_witness :
    (∃ m st2, load_module fsScenario ["/plugins".data]
        (fun _ => Except.ok ()) emptyLoaderState "foo.bar".data =
          Except.ok (m, st2)) ∧
    load_module fsScenario ["/plugins".data] (fun _ => Except.ok ())
        emptyLoaderState "nope".data = Except.error PyErr.attributeError :=
  ⟨(load_module_total_only_when_resolvable fsScenario ["/plugins".data]
      (fun _ => Except.ok ()) emptyLoaderState "foo.bar".data).1 (by decide)
      (fun _ _ => rfl),
   (load_module_total_only_when_resolvable fsScenario ["/plugins".data]
      (fun _ => Except.ok ()) emptyLoaderState "nope".data).2 (by decide)
      (by decide)⟩

/-- An attribute value found on a listener instance under a recognized hook
name: its Python truthiness (what `if toadd:` tests), whether it is
callable, and its identity as an observer. -/
structure HookAttr where
  truthy : Bool
  callable : Bool
  oid : Nat
deriving DecidableEq, Repr

/-- What instantiating a listener class yields, as far as registration
inspects it: the attribute, if any, found under each recognized hook name
(`getattr(inst, listname, None)`). -/
structure ListenerInstance where
  on_load : Option HookAttr
  on_new : Option HookAttr
deriving DecidableEq, Repr

/-- A plugin-exported (new-style) class as `reload_plugin` inspects it:
the outcome of each `issubclass` test against the four extension bases,
and the outcome of calling the class with no arguments. -/
structure PluginClass where
  isEventListener : Bool
  isTextCommand : Bool
  isWindowCommand : Bool
  isApplicationCommand : Bool
  ctor : Except PyErr ListenerInstance

/-- A member of a loaded module as `inspect.getmembers` yields it: either
a new-style class — `type(EventListener) == type(item[1])` holds — or any
other value, which the registrar skips. -/
inductive Member where
  | cls (c : PluginClass)
  | nonClass

/-- The glue wrapper registered with the host for each command kind. -/
inductive CmdKind where
  | textCommandGlue
  | windowCommandGlue
  | applicationCommandGlue
deriving DecidableEq, Repr

/-- Lines printed by `reload_plugin`: the banner print, the per-member
`Skipping registering ...` print, and `traceback.print_exc()` in the
outer handler. -/
inductive LogEntry where
  | loadingPlugin (modName : String)
  | skipRegistering (memberName : String) (e : PyErr)
  | printTraceback (e : PyErr)
deriving DecidableEq, Repr

/-- The process-wide state `reload_plugin` mutates: the observer lists of
the two lifecycle channels `on_load` (document loaded) and `on_new`
(document created), the host command table built through
`sublime.register`, and everything printed. -/
structure RegState where
  on_load_observers : List Nat
  on_new_observers : List Nat
  commands : List (String × CmdKind)
  log : List LogEntry
deriving DecidableEq, Repr

/-- Model of the closure `add(inst, listname)`:
`toadd = getattr(inst, listname, None); if toadd: l += toadd` — the
attribute is appended to the channel when it is present and truthy; the
code never asks whether it is callable. -/
def addHook (channel : List Nat) (attr : Option HookAttr) : List Nat :=
  match attr with
  | none => channel
  | some a => if a.truthy then channel ++ [a.oid] else channel

/-- Model of the `if/elif` classification-and-registration chain run for
one class member inside the per-member `try`: `EventListener` first (its
branch instantiates the class, which may raise, then wires the two hooks),
then `TextCommand`, `WindowCommand`, `ApplicationCommand`; a class
matching none of the four is skipped. -/
def processMemberBody (st : RegState) (memberName : String)
    (c : PluginClass) : Except PyErr RegState :=
  if c.isEventListener then
    match c.ctor with
    | Except.error e => Except.error e
    | Except.ok inst =>
      Except.ok { st with
        on_load_observers := addHook st.on_load_observers inst.on_load,
        on_new_observers := addHook st.on_new_observers inst.on_new }
  else if c.isTextCommand then
    Except.ok { st with
      commands := st.commands ++ [(memberName, CmdKind.textCommandGlue)] }
  else if c.isWindowCommand then
    Except.ok { st with
      commands := st.commands ++ [(memberName, CmdKind.windowCommandGlue)] }
  else if c.isApplicationCommand then
    Except.ok { st with
      commands := st.commands ++ [(memberName, CmdKind.applicationCommandGlue)] }
  else Except.ok st

/-- Model of one iteration of the member loop: non-class members are
skipped by the `type(...)` guard; a failure of the body is caught by the
per-member `except`, which prints `Skipping registering ...` and lets the
loop continue. -/
def processMember (st : RegState) (memberName : String) (m : Member) :
    RegState :=
  match m with
  | Member.nonClass => st
  | Member.cls c =>
    match processMemberBody st memberName c with
    | Except.ok st2 => st2
    | Except.error e =>
      { st with log := st.log ++ [LogEntry.skipRegistering memberName e] }

/-- The member loop of `reload_plugin` over the enumerated members. -/
def processMembers (st : RegState) (members : List (String × Member)) :
    RegState :=
  members.foldl (fun s nm => processMember s nm.1 nm.2) st

/-- A loaded plugin module as the registrar sees it: its members, named,
in enumeration order. -/
structure PluginModule where
  members : List (String × Member)

/-- Model of `reload_plugin(module)`: print the banner, then inside the
outer `try` import the module — the import, which runs the loader and the
plugin source, is summarized by its outcome `importResult` — and run the
member loop; the outer bare `except` prints the traceback and returns
normally. The `Except`-typed result is the Python calling convention: an
`Except.error` outcome would be an exception propagating to the caller. -/
def reload_plugin (st : RegState) (modName : String)
    (importResult : Except PyErr PluginModule) : Except PyErr RegState :=
  let st0 : RegState :=
    { st with log := st.log ++ [LogEntry.loadingPlugin modName] }
  match importResult with
  | Except.error e =>
    Except.ok { st0 with log := st0.log ++ [LogEntry.printTraceback e] }
  | Except.ok m => Except.ok (processMembers st0 m.members)

/-- C1: `reload_plugin` never lets an exception reach its caller: whatever
the import outcome and whatever the members do, it returns normally — a
failed import is printed by the outer handler and per-member failures are
printed by the inner one. -/
theorem reload_plugin_never_raises (st : RegState) (modName : String)
    (importResult : Except PyErr PluginModule) :
    ∃ st2, reload_plugin st modName importResult = Except.ok st2 := by
  cases importResult with
  | ok m => exact ⟨_, rfl⟩
  | error e => exact ⟨_, rfl⟩

/-- C2: classification is first-match in the fixed order `EventListener`,
`TextCommand`, `WindowCommand`, `ApplicationCommand`: a class passing the
`EventListener` test never touches the command table — even if it also
subclasses a command base — and a class failing it never touches the
listener channels and is registered under the first command kind it
matches, if any. -/
theorem classification_first_match (st : RegState) (memberName : String)
    (c : PluginClass) :
    (c.isEventListener = true →
      (processMember st memberName (Member.cls c)).commands = st.commands) ∧
    (c.isEventListener = false →
      (processMember st memberName (Member.cls c)).on_load_observers
          = st.on_load_observers ∧
      (processMember st memberName (Member.cls c)).on_new_observers
          = st.on_new_observers ∧
      (processMember st memberName (Member.cls c)).commands =
        st.commands ++
          (if c.isTextCommand then [(memberName, CmdKind.textCommandGlue)]
           else if c.isWindowCommand then
             [(memberName, CmdKind.windowCommandGlue)]
           else if c.isApplicationCommand then
             [(memberName, CmdKind.applicationCommandGlue)]
           else [])) := by
  constructor
  · intro hEL
    cases hctor : c.ctor with
    | ok inst => simp [processMember, processMemberBody, hEL, hctor]
    | error e => simp [processMember, processMemberBody, hEL, hctor]
  · intro hEL
    cases hTC : c.isTextCommand with
    | true => simp [processMember, processMemberBody, hEL, hTC]
    | false =>
      cases hWC : c.isWindowCommand with
      | true => simp [processMember, processMemberBody, hEL, hTC, hWC]
      | false =>
        cases hAC : c.isApplicationCommand with
        | true => simp [processMember, processMemberBody, hEL, hTC, hWC, hAC]
        | false => simp [processMember, processMemberBody, hEL, hTC, hWC, hAC]

/-- The registration state at process start: empty channels, empty command
table, nothing printed. -/
def emptyRegState : RegState :=
  { on_load_observers := [], on_new_observers := [], commands := [],
    log := [] }

/-- A class subclassing both `EventListener` and `TextCommand`, with a
working constructor exposing one hook. -/
def clsListenerAndText : PluginClass :=
  { isEventListener := true, isTextCommand := true, isWindowCommand := false,
    isApplicationCommand := false,
    ctor := Except.ok { on_load := some ⟨true, true, 3⟩, on_new := none } }

/-- A class subclassing both `TextCommand` and `WindowCommand` but not
`EventListener`. -/
def clsTextAndWindow : PluginClass :=
  { isEventListener := false, isTextCommand := true, isWindowCommand := true,
    isApplicationCommand := false,
    ctor := Except.ok { on_load := none, on_new := none } }

/-- Witness for C2: the class subclassing both `EventListener` and
`TextCommand` is not registered as a command, and the class subclassing
both `TextCommand` and `WindowCommand` is registered exactly once, as a
`TextCommand`. -/
theorem classification_first_match_witness :
    (processMember emptyRegState "both" (Member.cls clsListenerAndText)).commands
        = emptyRegState.commands ∧
    (processMember emptyRegState "tw" (Member.cls clsTextAndWindow)).commands
        = emptyRegState.commands ++ [("tw", CmdKind.textCommandGlue)] :=
  ⟨(classification_first_match emptyRegState "both" clsListenerAndText).1 rfl,
   by
    have h :=
      ((classification_first_match emptyRegState "tw" clsTextAndWindow).2
        rfl).2.2
    simpa [clsTextAndWindow] using h⟩

/-- C7: a member whose processing raises — here a listener class whose
constructor raises `e` — only contributes the `Skipping registering` log
line: the members before it are processed as usual and every member after
it is still processed from that logged state. -/
theorem member_failure_is_isolated (st : RegState)
    (ms1 ms2 : List (String × Member)) (memberName : String)
    (c : PluginClass) (e : PyErr)
    (hEL : c.isEventListener = true) (hctor : c.ctor = Except.error e) :
    processMembers st (ms1 ++ (memberName, Member.cls c) :: ms2) =
      processMembers
        { processMembers st ms1 with
          log := (processMembers st ms1).log
            ++ [LogEntry.skipRegistering memberName e] } ms2 := by
  unfold processMembers
  rw [List.foldl_append]
  simp only [List.foldl_cons]
  congr 1
  simp [processMember, processMemberBody, hEL, hctor]

/-- A listener class whose constructor raises. -/
def clsFailingCtor : PluginClass :=
  { isEventListener := true, isTextCommand := false, isWindowCommand := false,
    isApplicationCommand := false, ctor := Except.error (PyErr.exc 1) }

/-- A plain `TextCommand` subclass. -/
def clsTextOnly : PluginClass :=
  { isEventListener := false, isTextCommand := true, isWindowCommand := false,
    isApplicationCommand := false,
    ctor := Except.ok { on_load := none, on_new := none } }

/-- A plain `WindowCommand` subclass. -/
def clsWindowOnly : PluginClass :=
  { isEventListener := false, isTextCommand := false, isWindowCommand := true,
    isApplicationCommand := false,
    ctor := Except.ok { on_load := none, on_new := none } }

/-- Witness for C7: in a module enumerating a text command, then the
listener with the raising constructor, then a window command, the failure
is logged in between and both commands still end up registered. -/
theorem member_failure_is_isolated_witness :
    processMembers emptyRegState
        ([("a", Member.cls clsTextOnly)]
          ++ ("b", Member.cls clsFailingCtor) :: [("z", Member.cls clsWindowOnly)]) =
      processMembers
        { processMembers emptyRegState [("a", Member.cls clsTextOnly)] with
          log := (processMembers emptyRegState
              [("a", Member.cls clsTextOnly)]).log
            ++ [LogEntry.skipRegistering "b" (PyErr.exc 1)] }
        [("z", Member.cls clsWindowOnly)] ∧
    (processMembers emptyRegState
        ([("a", Member.cls clsTextOnly)]
          ++ ("b", Member.cls clsFailingCtor) :: [("z", Member.cls clsWindowOnly)])).commands
      = [("a", CmdKind.textCommandGlue), ("z", CmdKind.windowCommandGlue)] :=
  ⟨member_failure_is_isolated emptyRegState [("a", Member.cls clsTextOnly)]
      [("z", Member.cls clsWindowOnly)] "b" clsFailingCtor (PyErr.exc 1)
      rfl rfl,
   rfl⟩

/-- A hook attribute that is truthy but NOT callable. -/
def truthyNotCallable : HookAttr := { truthy := true, callable := false, oid := 7 }

/-- A listener class whose instance exposes `on_load` as the truthy,
non-callable attribute above. -/
def clsNonCallableHook : PluginClass :=
  { isEventListener := true, isTextCommand := false, isWindowCommand := false,
    isApplicationCommand := false,
    ctor := Except.ok { on_load := some truthyNotCallable, on_new := none } }

/-- C8 counterexample: registration appends a hook attribute that is not
callable — `add` tests only the truthiness of `getattr(inst, listname,
None)`, never callability — so it is false that only the hooks the
instance exposes as callable attributes reach the channels. -/
theorem non_callable_truthy_hook_is_appended :
    truthyNotCallable.callable = false ∧
    (processMember emptyRegState "L"
        (Member.cls clsNonCallableHook)).on_load_observers
      = [truthyNotCallable.oid] :=
  ⟨rfl, rfl⟩

/-- The observers a hook attribute contributes, as the amended claim words
it: the attribute is appended exactly when it is present and truthy. -/
def hookTargets : Option HookAttr → List Nat
  | none => []
  | some a => if a.truthy then [a.oid] else []

theorem addHook_eq_append_hookTargets (channel : List Nat)
    (attr : Option HookAttr) :
    addHook channel attr = channel ++ hookTargets attr := by
  cases attr with
  | none => simp [addHook, hookTargets]
  | some a =>
    cases h : a.truthy with
    | true => simp [addHook, hookTargets, h]
    | false => simp [addHook, hookTargets, h]

/-- C8 (amended): for a listener class whose instantiation succeeds,
exactly the hooks in the recognized set that the instance exposes as
TRUTHY attributes are appended, each to its matching channel; in
particular a listener implementing only `on_new` is invoked exactly once
when the document-created channel fires and not at all when the
document-loaded channel fires. -/
theorem listener_hooks_wired_by_truthiness (memberName : String)
    (c : PluginClass) (inst : ListenerInstance)
    (hEL : c.isEventListener = true) (hctor : c.ctor = Except.ok inst) :
    (∀ st, (processMember st memberName (Member.cls c)).on_load_observers
          = st.on_load_observers ++ hookTargets inst.on_load ∧
        (processMember st memberName (Member.cls c)).on_new_observers
          = st.on_new_observers ++ hookTargets inst.on_new) ∧
    (∀ (a : HookAttr) (beh : Nat → Nat → Except PyErr Unit) (x : Nat),
      inst.on_load = none → inst.on_new = some a → a.truthy = true →
      ∃ rNew rLoad,
        eventCall beh
            ⟨(processMember emptyRegState memberName
                (Member.cls c)).on_new_observers⟩ x = Except.ok rNew ∧
        rNew.calls = [(a.oid, x)] ∧
        eventCall beh
            ⟨(processMember emptyRegState memberName
                (Member.cls c)).on_load_observers⟩ x = Except.ok rLoad ∧
        rLoad.calls = []) := by
  have hstep : ∀ st : RegState,
      (processMember st memberName (Member.cls c)).on_load_observers
          = st.on_load_observers ++ hookTargets inst.on_load ∧
      (processMember st memberName (Member.cls c)).on_new_observers
          = st.on_new_observers ++ hookTargets inst.on_new := by
    intro st
    simp [processMember, processMemberBody, hEL, hctor,
      addHook_eq_append_hookTargets]
  refine ⟨hstep, ?_⟩
  intro a beh x hol hon htruthy
  have h1 := (hstep emptyRegState).1
  have h2 := (hstep emptyRegState).2
  rw [hol] at h1
  rw [hon] at h2
  have e1 : emptyRegState.on_load_observers = [] := rfl
  have e2 : emptyRegState.on_new_observers = [] := rfl
  rw [e1] at h1
  rw [e2] at h2
  simp only [hookTargets, htruthy, if_true, List.nil_append] at h1 h2
  obtain ⟨rNew, hrNew, hcallsNew⟩ :=
    callObservers_ok beh x
      (processMember emptyRegState memberName (Member.cls c)).on_new_observers
  obtain ⟨rLoad, hrLoad, hcallsLoad⟩ :=
    callObservers_ok beh x
      (processMember emptyRegState memberName (Member.cls c)).on_load_observers
  refine ⟨rNew, rLoad, hrNew, ?_, hrLoad, ?_⟩
  · rw [hcallsNew, h2]
    rfl
  · rw [hcallsLoad, h1]
    rfl

/-- A listener class implementing only `on_new` (truthy, callable). -/
def clsOnlyOnNew : PluginClass :=
  { isEventListener := true, isTextCommand := false, isWindowCommand := false,
    isApplicationCommand := false,
    ctor := Except.ok { on_load := none, on_new := some ⟨true, true, 4⟩ } }

/-- Witness for C8 (amended): after registering the only-`on_new` listener
into fresh channels, firing the document-created channel invokes it
exactly once with the fired argument and firing the document-loaded
channel invokes nothing. -/
theorem listener_hooks_wired_by_truthiness_witness :
    ∃ rNew rLoad,
      eventCall (fun _ _ => Except.ok ())
          ⟨(processMember emptyRegState "snippets"
              (Member.cls clsOnlyOnNew)).on_new_observers⟩ 0 = Except.ok rNew ∧
      rNew.calls = [((4 : Nat), (0 : Nat))] ∧
      eventCall (fun _ _ => Except.ok ())
          ⟨(processMember emptyRegState "snippets"
              (Member.cls clsOnlyOnNew)).on_load_observers⟩ 0 = Except.ok rLoad ∧
      rLoad.calls = [] :=
  (listener_hooks_wired_by_truthiness "snippets" clsOnlyOnNew
      { on_load := none, on_new := some ⟨true, true, 4⟩ } rfl rfl).2
    ⟨true, true, 4⟩ (fun _ _ => Except.ok ()) 0 rfl rfl rfl
